import Mathlib

/-!
Verification of the calculator server (`src/calculator_server.py`).

The server registers nine pure arithmetic tools: `add`, `subtract`,
`multiply`, `divide`, `power`, `modulo`, `square_root`, `absolute`,
`percentage`.  Each tool takes Python `float` arguments and either returns
a number or raises `ValueError` with a fixed message.

Embedding choices:
* Python floats are modelled by exact rationals (`ℚ`).  Every finite float
  is a rational number, and the algebraic/error-behaviour claims under
  scrutiny are about the exact values; rounding and overflow are not
  modelled.  IEEE negative zero (`-0.0`) has the numeric value `0`, and the
  zero tests in the source (`b == 0`, `number < 0`) are numeric
  comparisons, so they are translated to the corresponding comparisons
  on `ℚ`.
* A fallible tool returns `Except CalcError _`; `CalcError.valueError msg`
  models Python's `raise ValueError(msg)` with the exact message string
  from the source.
* `math.sqrt` and `math.pow` produce irrational values in general, so
  their success values live in `ℝ` (`Real.sqrt`, `Real.rpow`); their
  error behaviour (the guards, and CPython's domain errors) stays on `ℚ`
  and is decidable.
-/

namespace Calculator

/-- Error raised by a tool: Python `ValueError` with its message string. -/
inductive CalcError where
  | valueError (msg : String)
deriving DecidableEq, Repr

/-- Source: `add(a, b)` — `return a + b`. -/
def add (a b : ℚ) : ℚ := a + b

/-- Source: `subtract(a, b)` — `return a - b`. -/
def subtract (a b : ℚ) : ℚ := a - b

/-- Source: `multiply(a, b)` — `return a * b`. -/
def multiply (a b : ℚ) : ℚ := a * b

/-- Source: `divide(a, b)` — raises `ValueError("Cannot divide by zero")`
when `b == 0`, otherwise `return a / b`. -/
def divide (a b : ℚ) : Except CalcError ℚ :=
  if b = 0 then .error (.valueError "Cannot divide by zero")
  else .ok (a / b)

/-- Value of Python's float `%` operator in exact arithmetic:
`a % b = a - b * floor(a / b)` (the result, when non-zero, takes the sign
of the divisor `b`). -/
def pymod (a b : ℚ) : ℚ := a - b * ⌊a / b⌋

/-- Source: `modulo(a, b)` — raises
`ValueError("Cannot perform modulo with zero divisor")` when `b == 0`,
otherwise `return a % b` (Python float modulo). -/
def modulo (a b : ℚ) : Except CalcError ℚ :=
  if b = 0 then .error (.valueError "Cannot perform modulo with zero divisor")
  else .ok (pymod a b)

/-- Domain errors of CPython's `math.pow` on finite inputs: it raises
`ValueError("math domain error")` when the base is negative and the
exponent is not an integer (the C `pow` result would be NaN), and when the
base is zero and the exponent is negative (the C `pow` result would be an
infinity from zero).  A rational is an integer iff its denominator is 1. -/
def powDomainError (base exponent : ℚ) : Prop :=
  (base < 0 ∧ exponent.den ≠ 1) ∨ (base = 0 ∧ exponent < 0)

instance (base exponent : ℚ) : Decidable (powDomainError base exponent) := by
  unfold powDomainError; infer_instance

/-- Source: `power(base, exponent)` — `return math.pow(base, exponent)`.
On its domain `math.pow` computes real exponentiation (`Real.rpow`, whose
value for a negative base and integer exponent agrees with the integer
power).  Floating-point overflow (`OverflowError`) is outside the exact
model. -/
noncomputable def power (base exponent : ℚ) : Except CalcError ℝ :=
  if powDomainError base exponent then .error (.valueError "math domain error")
  else .ok ((base : ℝ) ^ (exponent : ℝ))

/-- Source: `square_root(number)` — raises
`ValueError("Cannot calculate square root of a negative number")` when
`number < 0`, otherwise `return math.sqrt(number)`. -/
noncomputable def square_root (number : ℚ) : Except CalcError ℝ :=
  if number < 0 then
    .error (.valueError "Cannot calculate square root of a negative number")
  else .ok (Real.sqrt (number : ℝ))

/-- Source: `absolute(number)` — `return abs(number)`. -/
def absolute (number : ℚ) : ℚ := |number|

/-- Source: `percentage(value, percent)` — `return (value * percent) / 100`. -/
def percentage (value percent : ℚ) : ℚ := (value * percent) / 100

/-- Two rationals have the same (strict) sign. -/
def sameSign (x y : ℚ) : Prop := (0 < x ∧ 0 < y) ∨ (x < 0 ∧ y < 0)

instance (x y : ℚ) : Decidable (sameSign x y) := by
  unfold sameSign; infer_instance

/-- C3: `divide(a, b)` fails, with the fixed message
"Cannot divide by zero", exactly when `b = 0`; for every `b ≠ 0` it
returns the quotient `a / b`. -/
theorem divide_spec (a b : ℚ) :
    (divide a b = .error (.valueError "Cannot divide by zero") ↔ b = 0) ∧
    (b ≠ 0 → divide a b = .ok (a / b)) := by
  unfold divide
  constructor
  · constructor
    · intro h
      by_contra hb
      simp [if_neg hb] at h
    · intro hb
      simp [if_pos hb]
  · intro hb
    simp [if_neg hb]

/-- Witness for C3 at `a = 15`, `b = 3`. -/
theorem divide_spec_witness : divide 15 3 = .ok (15 / 3) :=
  (divide_spec 15 3).2 (by norm_num)

/-- C4: `modulo(a, b)` fails exactly when `b = 0`, and the failure is the
fixed zero-divisor `ValueError`. -/
theorem modulo_fails_iff (a b : ℚ) :
    ((∃ e, modulo a b = .error e) ↔ b = 0) ∧
    modulo a 0 = .error (.valueError "Cannot perform modulo with zero divisor") := by
  unfold modulo
  refine ⟨⟨fun h => ?_, fun hb => ?_⟩, by simp⟩
  · by_contra hb
    simp [if_neg hb] at h
  · exact ⟨.valueError "Cannot perform modulo with zero divisor", by simp [if_pos hb]⟩

/-- C6: addition is commutative, and subtracting `b` from `add(a, b)`
gives back `a` (exact in the rational model, hence within any
floating-point tolerance). -/
theorem add_comm_sub (a b : ℚ) :
    add a b = add b a ∧ subtract (add a b) b = a := by
  unfold add subtract
  constructor <;> ring

/-- C7: for every `b ≠ 0`, dividing `multiply(a, b)` by `b` gives back
exactly `a` (multiply-then-divide round trip). -/
theorem multiply_divide_roundtrip (a b : ℚ) (hb : b ≠ 0) :
    divide (multiply a b) b = .ok a := by
  unfold divide multiply
  rw [if_neg hb, mul_div_cancel_right₀ a hb]

/-- Witness for C7 at `a = 3`, `b = 2`. -/
theorem multiply_divide_roundtrip_witness : divide (multiply 3 2) 2 = .ok 3 :=
  multiply_divide_roundtrip 3 2 (by norm_num)

/-- C8: `absolute(x)` is non-negative and equals `absolute(-x)`; it is a
total function, so it never fails. -/
theorem absolute_nonneg_even (x : ℚ) :
    0 ≤ absolute x ∧ absolute x = absolute (-x) := by
  unfold absolute
  exact ⟨abs_nonneg x, (abs_neg x).symm⟩

/-- C10: the zero-divisor guards in `divide` and `modulo` compare
numerically (`b == 0` in Python, which is true for `-0.0`).  In the exact
model the numeric value of the IEEE float `-0.0` is `-0 = 0 : ℚ`, so both
operations fail with their division-by-zero error on a negative-zero
divisor instead of returning a value. -/
theorem neg_zero_divisor (a : ℚ) :
    divide a (-0) = .error (.valueError "Cannot divide by zero") ∧
    modulo a (-0) = .error (.valueError "Cannot perform modulo with zero divisor") := by
  unfold divide modulo
  norm_num

/-- C1 counterexample: `modulo(-7, 3)` returns `2`, which is non-zero and
does not have the sign of the dividend `-7` (Python's `%` takes the sign
of the divisor, not the dividend). -/
theorem modulo_dividend_sign_counterexample :
    modulo (-7) 3 = .ok 2 ∧ ¬((2 : ℚ) = 0 ∨ sameSign 2 (-7)) := by
  constructor
  · unfold modulo pymod
    norm_num
  · unfold sameSign
    norm_num

/-- C1 (amended): for every `b ≠ 0`, `modulo(a, b)` returns the remainder
`a - b * floor(a / b)`, which is zero or has the same sign as the
DIVISOR `b` (sign-matching-divisor convention). -/
theorem modulo_sign_divisor (a b r : ℚ) (h : modulo a b = .ok r) :
    r = a - b * ⌊a / b⌋ ∧ (r = 0 ∨ sameSign r b) := by
  unfold modulo at h
  by_cases hb : b = 0
  · rw [if_pos hb] at h
    exact absurd h (by simp)
  · rw [if_neg hb] at h
    injection h with h
    subst h
    refine ⟨rfl, ?_⟩
    have hba : b * (a / b) = a := by field_simp
    have hfe : pymod a b = b * Int.fract (a / b) := by
      unfold pymod
      rw [Int.fract, mul_sub, hba]
    rcases (Int.fract_nonneg (a / b)).eq_or_lt with hf | hf
    · left
      rw [hfe, ← hf, mul_zero]
    · right
      unfold sameSign
      rcases lt_or_gt_of_ne hb with hbneg | hbpos
      · exact Or.inr ⟨by rw [hfe]; exact mul_neg_of_neg_of_pos hbneg hf, hbneg⟩
      · exact Or.inl ⟨by rw [hfe]; exact mul_pos hbpos hf, hbpos⟩

/-- Witness for the amended C1 at `modulo(17, 5) = 2`. -/
theorem modulo_sign_divisor_witness :
    (2 : ℚ) = 17 - 5 * ⌊(17 : ℚ) / 5⌋ ∧ ((2 : ℚ) = 0 ∨ sameSign 2 5) :=
  modulo_sign_divisor 17 5 2 (by unfold modulo pymod; norm_num)

/-- C2 counterexample: `power(-2, 1/2)` fails with a math domain error
(`math.pow` raises `ValueError` for a negative base and a non-integer
exponent), so `power` is not total. -/
theorem power_total_counterexample :
    power (-2) (1/2) = .error (.valueError "math domain error") := by
  unfold power
  rw [if_pos]
  unfold powDomainError
  left
  norm_num

/-- C2 (amended): `power(base, exponent)` fails exactly when `math.pow`
has a domain error — a negative base with a non-integer exponent, or a
zero base with a negative exponent; on every other input it returns the
real exponentiation of its arguments (overflow aside, exact model). -/
theorem power_fails_iff (base exponent : ℚ) :
    ((∃ e, power base exponent = .error e) ↔
      ((base < 0 ∧ exponent.den ≠ 1) ∨ (base = 0 ∧ exponent < 0))) ∧
    (¬((base < 0 ∧ exponent.den ≠ 1) ∨ (base = 0 ∧ exponent < 0)) →
      power base exponent = .ok ((base : ℝ) ^ (exponent : ℝ))) := by
  unfold power
  by_cases hd : powDomainError base exponent
  · rw [if_pos hd]
    unfold powDomainError at hd
    exact ⟨⟨fun _ => hd, fun _ => ⟨.valueError "math domain error", rfl⟩⟩,
      fun hn => absurd hd hn⟩
  · rw [if_neg hd]
    unfold powDomainError at hd
    refine ⟨⟨fun he => ?_, fun h => absurd h hd⟩, fun _ => rfl⟩
    obtain ⟨e, he⟩ := he
    simp at he

/-- Witness for the amended C2 at `power(2, 3)`. -/
theorem power_fails_iff_witness :
    power 2 3 = .ok (((2 : ℚ) : ℝ) ^ (((3 : ℚ)) : ℝ)) :=
  (power_fails_iff 2 3).2 (by norm_num)

/-- C5: `square_root(x)` fails, with the fixed negative-input
`ValueError`, exactly when `x < 0`; for every `x ≥ 0` it returns the
principal square root, which is non-negative and squares back to `x`
(exactly, in the real model). -/
theorem square_root_spec (x : ℚ) :
    ((∃ e, square_root x = .error e) ↔ x < 0) ∧
    (x < 0 → square_root x =
      .error (.valueError "Cannot calculate square root of a negative number")) ∧
    (0 ≤ x → square_root x = .ok (Real.sqrt (x : ℝ)) ∧
      0 ≤ Real.sqrt (x : ℝ) ∧ Real.sqrt (x : ℝ) ^ 2 = (x : ℝ)) := by
  unfold square_root
  by_cases hx : x < 0
  · rw [if_pos hx]
    exact ⟨⟨fun _ => hx,
        fun _ => ⟨.valueError "Cannot calculate square root of a negative number", rfl⟩⟩,
      fun _ => rfl, fun h0 => absurd hx (not_lt.2 h0)⟩
  · rw [if_neg hx]
    push_neg at hx
    refine ⟨⟨fun he => ?_, fun h => absurd h (not_lt.2 hx)⟩,
      fun h => absurd h (not_lt.2 hx),
      fun h0 => ⟨rfl, Real.sqrt_nonneg _, Real.sq_sqrt (by exact_mod_cast hx)⟩⟩
    obtain ⟨e, he⟩ := he
    simp at he

/-- Witness for C5 at `x = 16`. -/
theorem square_root_spec_witness :
    square_root 16 = .ok (Real.sqrt ((16 : ℚ) : ℝ)) ∧
    0 ≤ Real.sqrt ((16 : ℚ) : ℝ) ∧ Real.sqrt ((16 : ℚ) : ℝ) ^ 2 = ((16 : ℚ) : ℝ) :=
  (square_root_spec 16).2.2 (by norm_num)

/-- C9: `percentage(value, percent)` always returns
`value * percent / 100`, and the concrete scenarios from the test suite
hold: `percentage(200, 15) = 30`, `add(5, 3) = 8`, `subtract(10, 4) = 6`,
`multiply(6, 7) = 42`, `divide(15, 3) = 5`, `power(2, 3) = 8`,
`modulo(17, 5) = 2`, `square_root(16) = 4`, `absolute(-5) = 5`. -/
theorem concrete_scenarios :
    (∀ value percent : ℚ, percentage value percent = value * percent / 100) ∧
    percentage 200 15 = 30 ∧ add 5 3 = 8 ∧ subtract 10 4 = 6 ∧
    multiply 6 7 = 42 ∧ divide 15 3 = .ok 5 ∧ power 2 3 = .ok 8 ∧
    modulo 17 5 = .ok 2 ∧ square_root 16 = .ok 4 ∧ absolute (-5) = 5 := by
  refine ⟨fun v p => rfl, by norm_num [percentage], by norm_num [add],
    by norm_num [subtract], by norm_num [multiply], ?_, ?_, ?_, ?_,
    by norm_num [absolute]⟩
  · unfold divide
    norm_num
  · unfold power
    rw [if_neg (by unfold powDomainError; norm_num)]
    congr 1
    rw [show (((3 : ℚ)) : ℝ) = ((3 : ℕ) : ℝ) by norm_num, Real.rpow_natCast]
    norm_num
  · unfold modulo pymod
    norm_num
  · unfold square_root
    rw [if_neg (by norm_num)]
    congr 1
    rw [show (((16 : ℚ)) : ℝ) = 4 ^ 2 by norm_num,
      Real.sqrt_sq (by norm_num : (0 : ℝ) ≤ 4)]

end Calculator
